import Mathlib

set_option maxRecDepth 8000

/-!
Verification of the Neko-Oracle-RWA price-attestation pipeline.

The development shallowly embeds the TypeScript sources:
* `commit.ts` (Poseidon commitment binder: `assetIdToInt`, `generateCommit`),
* `publisher.ts` (`SorobanPublisher`: `retry`, `publishToOracle`, the
  `set_asset_price` payload, and the older variant with an explicit
  confirmation-poll loop),
and models, from the specification, the parts of the repository that are not
present in the source tree (the `verify_price_proof` verifier of the
Soroban contract and the consensus-proof builder).

JavaScript 32-bit bitwise arithmetic is embedded via `toInt32`; Rust `i128`
division and the `as u32` cast are embedded via `Int.tdiv` and `Int.emod`.
The external Poseidon and keccak256 hash functions are parameters of the
definitions (the spec treats the hash as a swappable capability); `demoHash`
and `demoPoseidon` are concrete instantiations used only to state closed
witness facts.
-/

namespace NekoOracle

/-! ## CommitmentBinder: `assetIdToInt` and `generateCommit` (commit.ts) -/

/-- JavaScript `ToInt32`: reduce an integer to the range `[-2^31, 2^31)`,
as performed by the bitwise operators `<<` and `&` in `assetIdToInt`. -/
def toInt32 (x : ℤ) : ℤ :=
  if Int.emod x 4294967296 < 2147483648 then Int.emod x 4294967296
  else Int.emod x 4294967296 - 4294967296

/-- One iteration of the `assetIdToInt` loop:
`hash = ((hash << 5) - hash) + char; hash = hash & hash;`.
`hash << 5` coerces to int32 and multiplies by 32 (then truncates again),
and `hash & hash` is `ToInt32` of the running sum. -/
def assetIdToIntStep (hash : ℤ) (c : Char) : ℤ :=
  toInt32 (toInt32 (hash * 32) - hash + (c.toNat : ℤ))

/-- The signed 32-bit folded hash accumulated by `assetIdToInt` before
`Math.abs` is applied (the local variable `hash` at loop exit). -/
def assetIdHash (assetId : String) : ℤ :=
  assetId.data.foldl assetIdToIntStep 0

/-- Function `assetIdToInt(assetId)`: the folded 32-bit hash passed through
`Math.abs`, then `BigInt`. -/
def assetIdToInt (assetId : String) : ℤ :=
  |assetIdHash assetId|

/-- The argument list handed to Poseidon by `generateCommit`:
`[BigInt(price), BigInt(timestamp), assetIdInt]`. -/
def generateCommitInputs (price timestamp : ℤ) (assetId : String) : List ℤ :=
  [price, timestamp, assetIdToInt assetId]

/-- Function `generateCommit(price, timestamp, assetId)`: Poseidon applied to the
three-element input list. The Poseidon instance built by `buildPoseidon()`
(circomlibjs, an external collaborator) is a parameter. -/
def generateCommit (poseidon : List ℤ → ℤ) (price timestamp : ℤ)
    (assetId : String) : ℤ :=
  poseidon (generateCommitInputs price timestamp assetId)

/-- The commitment the pipeline attaches to an attestation that carries a
proof digest: the scheduler computes it by calling `generateCommit`, which
takes no proof-digest argument, so the digest is ignored. -/
def attestationCommit (poseidon : List ℤ → ℤ) (price timestamp : ℤ)
    (assetId : String) (_proofDigest : ℤ) : ℤ :=
  generateCommit poseidon price timestamp assetId

/-- A two-call run of `generateCommit` threaded through an ambient world
state: the only effect in the body is `await buildPoseidon()`, whose result is
the fixed deterministic Poseidon instance, so the world passes through
unchanged and the value depends only on the arguments. -/
def generateCommitRun {World : Type} (poseidon : List ℤ → ℤ) (w : World)
    (price timestamp : ℤ) (assetId : String) : World × ℤ :=
  (w, generateCommit poseidon price timestamp assetId)

/-- A concrete stand-in hash used only to state closed evaluation facts;
all theorems about the binder quantify over the hash function. -/
def demoPoseidon (inputs : List ℤ) : ℤ :=
  inputs.foldl (fun a x => a * 31 + x) 7

/-! ## AttestationPublisher: `SorobanPublisher` (publisher.ts) -/

/-- The `Asset` enum value built by `toAsset`: `{ tag: "Other", values: [assetId] }`. -/
structure Asset where
  tag : String
  values : List String
deriving DecidableEq

/-- Function `toAsset(assetId)`. -/
def toAsset (assetId : String) : Asset :=
  { tag := "Other", values := [assetId] }

/-- Structure `PublishParams` as received by `publishToOracle`. -/
structure PublishParams where
  assetId : String
  price : ℤ
  timestamp : ℤ
  commit : String
deriving DecidableEq

/-- The argument object of the `client.set_asset_price` call inside
`publishToOracle`: exactly the fields `asset_id`, `price`, `timestamp`. -/
structure SetAssetPricePayload where
  asset_id : Asset
  price : ℤ
  timestamp : ℤ
deriving DecidableEq

/-- The payload `publishToOracle` submits:
`{ asset_id: this.toAsset(params.assetId), price: BigInt(params.price),
timestamp: BigInt(params.timestamp) }`. -/
def setAssetPricePayload (params : PublishParams) : SetAssetPricePayload :=
  { asset_id := toAsset params.assetId
    price := params.price
    timestamp := params.timestamp }

/-- Errors surfaced by the publisher, together with the taxonomy
labels the spec assigns for ledger rejections. The concrete constructors
`noFinalResponse`, `badStatus`, `noTxHash`, `ledgerFailed` are the four
`throw new Error(...)` sites of the two `publishToOracle` variants. -/
inductive PublishError where
  | proofAlreadyUsed
  | priceMismatch
  | applicationRejection
  | networkError
  | nodeUnavailable
  | simulationContention
  | noFinalResponse
  | badStatus (status : String)
  | noTxHash
  | ledgerFailed
deriving DecidableEq

/-- Modelled from the spec: the classification of failures assumed by the
retry policy
(§4.3, §7). Transient: network error, node temporarily unavailable,
simulation-stage resource contention. Everything else — in particular the
ledger rejections `ProofAlreadyUsed` and `PriceMismatch` and any
application-level rejection — is permanent. The TypeScript code contains no
such classification; this definition exists to state the claims about it. -/
def isTransient : PublishError → Bool
  | .networkError => true
  | .nodeUnavailable => true
  | .simulationContention => true
  | _ => false

/-- Value of the `maxRetries` field of `SorobanPublisher`. -/
def maxRetries : ℕ := 3

/-- Value of the `retryDelay` field of `SorobanPublisher` (milliseconds slept between
attempts, fixed — no exponential backoff). -/
def retryDelay : ℕ := 1000

/-- The `retry` wrapper of `SorobanPublisher`:
`try { return await fn() } catch (e) { if (retries <= 0) throw e;
await sleep(retryDelay); return this.retry(fn, retries - 1) }`.
`attempts k` is the outcome of the `k`-th invocation of `fn`; the first
argument counts the retries still allowed. -/
def retryModel {E A : Type} (attempts : ℕ → Except E A) : ℕ → ℕ → Except E A
  | retries, k =>
    match attempts k with
    | .ok v => .ok v
    | .error e =>
      match retries with
      | 0 => .error e
      | r + 1 => retryModel attempts r (k + 1)

/-- Structure `PublishResult` (`{ txHash, success }`). -/
structure PublishResult where
  txHash : String
  success : Bool
deriving DecidableEq

/-- The final transaction response read from `sentTx.getTransactionResponse`. -/
structure TxResponse where
  status : String
  txHash : Option String
deriving DecidableEq

/-- Response `sentTx.sendTransactionResponse` (only its `hash` field is read). -/
structure SendResponse where
  hash : String
deriving DecidableEq

/-- The observable outcome of `assembledTx.signAndSend()` consumed by
`publishToOracle`. -/
structure SentTx where
  getTransactionResponse : Option TxResponse
  sendTransactionResponse : Option SendResponse
deriving DecidableEq

/-- The body of the closure `publishToOracle` passes to `retry`: throw if
there is no final response, throw unless its status is `"SUCCESS"`, take
`finalResponse.txHash ?? sentTx.sendTransactionResponse?.hash`, throw if
that is undefined, and otherwise return `{ txHash, success: true }`. -/
def publishAttempt (sentTx : SentTx) : Except PublishError PublishResult :=
  match sentTx.getTransactionResponse with
  | none => .error .noFinalResponse
  | some finalResponse =>
    if finalResponse.status = "SUCCESS" then
      match finalResponse.txHash with
      | some h => .ok { txHash := h, success := true }
      | none =>
        match sentTx.sendTransactionResponse with
        | some s => .ok { txHash := s.hash, success := true }
        | none => .error .noTxHash
    else .error (.badStatus finalResponse.status)

/-- Function `publishToOracle(params)`: the attempt body wrapped in
`this.retry(...)` with the default budget `maxRetries`; `runs k` is the
ledger interaction observed by the `k`-th attempt. -/
def publishToOracle (runs : ℕ → SentTx) : Except PublishError PublishResult :=
  retryModel (fun k => publishAttempt (runs k)) maxRetries 0

/-! ## The older `publishToOracle` variant with an explicit poll loop. -/

/-- Status enum `rpc.Api.GetTransactionStatus` as consumed by the confirmation loop. -/
inductive GetTxStatus where
  | notFound
  | success
  | failed
deriving DecidableEq

/-- The confirmation-poll loop
`while (result.status === NOT_FOUND) { await sleep(1500); result = await
this.server.getTransaction(txHash); }`, observed for `fuel` iterations:
`statuses n` is the `n`-th `getTransaction` result, and the loop yields the
first status that is not `NOT_FOUND`; `none` means the loop was still
running after `fuel` polls. The code itself carries no fuel, deadline or
timeout — `fuel` is only the observation window. -/
def pollFuel (statuses : ℕ → GetTxStatus) : ℕ → ℕ → Option GetTxStatus
  | 0, _ => none
  | fuel + 1, k =>
    match statuses k with
    | .notFound => pollFuel statuses fuel (k + 1)
    | s => some s

/-- The poll loop terminates exactly when some `getTransaction` call
returns a status other than `NOT_FOUND`. -/
def pollTerminates (statuses : ℕ → GetTxStatus) : Prop :=
  ∃ n, statuses n ≠ .notFound

/-- The older `publishToOracle`: throw when the send response carries no
hash, poll until the status is not `NOT_FOUND`, throw on `FAILED`, and
otherwise return `{ txHash, success: true }`. `none` means the poll loop
had not finished within `fuel` iterations. -/
def publishToOracleOld (sendHash : Option String)
    (statuses : ℕ → GetTxStatus) (fuel : ℕ) :
    Option (Except PublishError PublishResult) :=
  match sendHash with
  | none => some (.error .noTxHash)
  | some h =>
    match pollFuel statuses fuel 0 with
    | none => none
    | some .failed => some (.error .ledgerFailed)
    | some _ => some (.ok { txHash := h, success := true })

/-! ## OnChainVerifier (spec-modelled) -/

/-- Rejection reason codes of the on-chain verifier (§4.4 and the
documented `Error` enum of the contract). -/
inductive RejectReason where
  | emptyProof
  | badProofLen
  | zeroProof
  | noPublicInput
  | priceMismatch
  | proofAlreadyUsed
deriving DecidableEq

/-- Outcome of `verifyAndRecord`: `Accept` or `Reject(reason)`. -/
inductive VerifyResult where
  | accept
  | reject (reason : RejectReason)
deriving DecidableEq

/-- Record `UsedProofRecord { proofDigest, firstSeenAt, assetId }` persisted
ledger-side; the digest is the (parameterized) hash of the proof bytes. -/
structure UsedProofRecord where
  proofDigest : ℕ
  firstSeenAt : ℤ
  assetId : String
deriving DecidableEq

/-- Ledger-side persistent state (§6): the used-proof records, the price
store keyed by `(assetId, timestamp)`, and the audit metadata
`(commitment, proofDigest, verified)`. -/
structure LedgerState where
  usedProofs : List UsedProofRecord
  prices : List ((String × ℤ) × ℤ)
  audit : List (ℤ × ℕ × Bool)
deriving DecidableEq

/-- The set of proof digests for which a `UsedProofRecord` exists. -/
def usedDigests (st : LedgerState) : List ℕ :=
  st.usedProofs.map UsedProofRecord.proofDigest

/-- The empty ledger state. -/
def emptyLedger : LedgerState :=
  { usedProofs := [], prices := [], audit := [] }

/-- The claimed price re-scaled to the 2-decimal convention of the circuit:
`(expected_price / 100000) as u32`, i.e. Rust `i128` truncating division
followed by the wrapping cast to `u32`. -/
def scaledClaim (claimedPrice : ℤ) : ℕ :=
  (Int.emod (Int.tdiv claimedPrice 100000) 4294967296).toNat

/-- Modelled from the spec: `validate_proof_structure` from the contract
module `zk_verifier.rs`, which is not under `src/` (only the snippet quoted in the
repository documentation is). Per §4.4 step 1: the proof payload must be
non-empty, at least the configured minimum length, and not all-zero bytes;
returns the rejection reason of the first failing check. -/
def validateProofStructure (minProofLen : ℕ) (proofBytes : List ℕ) :
    Option RejectReason :=
  if proofBytes = [] then some .emptyProof
  else if proofBytes.length < minProofLen then some .badProofLen
  else if proofBytes.all (fun b => b == 0) then some .zeroProof
  else none

/-- Modelled from the spec: `verifyAndRecord` / `verify_price_proof` of the
contract (`zk_verifier.rs` is not under `src/`; this follows the §4.4
validation order and the `verify_price_proof` snippet quoted in the
repository documentation). Checks run in order — structural, public-input
presence, price agreement, replay — short-circuiting on the first failure
with the state unchanged; on success it persists the `UsedProofRecord`, the
attested price keyed by `(assetId, claimedTimestamp)`, and the audit
metadata. `hashFn` stands for `env.crypto().keccak256`. -/
def verify_price_proof (hashFn : List ℕ → ℕ) (minProofLen : ℕ)
    (st : LedgerState) (assetId : String) (commitment : ℤ)
    (proofBytes : List ℕ) (publicInputs : List ℕ)
    (claimedPrice claimedTimestamp : ℤ) : VerifyResult × LedgerState :=
  match validateProofStructure minProofLen proofBytes with
  | some r => (.reject r, st)
  | none =>
    match publicInputs with
    | [] => (.reject .noPublicInput, st)
    | avgPrice :: _ =>
      if avgPrice = scaledClaim claimedPrice then
        if hashFn proofBytes ∈ usedDigests st then
          (.reject .proofAlreadyUsed, st)
        else
          (.accept,
            { usedProofs :=
                ⟨hashFn proofBytes, claimedTimestamp, assetId⟩ :: st.usedProofs
              prices := ((assetId, claimedTimestamp), claimedPrice) :: st.prices
              audit := (commitment, hashFn proofBytes, true) :: st.audit })
      else (.reject .priceMismatch, st)

/-- A concrete stand-in digest function used only in closed witness facts;
every theorem about the verifier quantifies over `hashFn`. -/
def demoHash (proofBytes : List ℕ) : ℕ :=
  proofBytes.foldl (fun a b => a * 257 + b) 0

/-! ## ConsensusProofBuilder (spec-modelled) -/

/-- Structure `PriceObservation` (§3). -/
structure PriceObservation where
  assetId : String
  scaledPrice : ℕ
  observedAt : ℤ
  sourceId : String

/-- Failure modes of `build` (§4.1). -/
inductive BuildError where
  | insufficientSources
  | toleranceExceeded
  | proofGenerationFailed
  | localVerificationFailed
deriving DecidableEq

/-- Structure `ConsensusProof` (§3), with `proofDigest` left to the hash of the
proof bytes where needed. -/
structure ConsensusProof where
  assetId : String
  averagedPrice : ℕ
  timestamp : ℤ
  proofBytes : List ℕ
  publicInputs : List ℕ

/-- Computation `maxPrice = max(all scaledPrice)`. -/
def maxScaledPrice (obs : List PriceObservation) : ℕ :=
  (obs.map PriceObservation.scaledPrice).foldl Nat.max 0

/-- Computation `min(all scaledPrice)` (0 on the empty list, which `build` rejects
before using it). -/
def minScaledPrice (obs : List PriceObservation) : ℕ :=
  match obs.map PriceObservation.scaledPrice with
  | [] => 0
  | p :: ps => ps.foldl Nat.min p

/-- Computation `diff = max - min`. -/
def priceDiff (obs : List PriceObservation) : ℕ :=
  maxScaledPrice obs - minScaledPrice obs

/-- Threshold `maxPrice * toleranceBps / 10000` (integer division). -/
def toleranceThreshold (obs : List PriceObservation) (toleranceBps : ℕ) : ℕ :=
  maxScaledPrice obs * toleranceBps / 10000

/-- Modelled from the spec: `build(observations, toleranceBps)` of the
ConsensusProofBuilder (§4.1), which is not under `src/`. Fails with
`InsufficientSources` below two observations; fails with
`ToleranceExceeded` when `diff > maxPrice * toleranceBps / 10000`; only
then invokes the external `Prove` oracle, fails with
`ProofGenerationFailed` on its error, then invokes `VerifyFull` and fails
with `LocalVerificationFailed` when it returns false; the returned
`averagedPrice` is the first declared public output of the circuit. The second
component counts how many times `Prove` was invoked. -/
def build (prove : List PriceObservation → Option (List ℕ × List ℕ))
    (verifyFull : List ℕ → List ℕ → Bool)
    (obs : List PriceObservation) (toleranceBps : ℕ)
    (timestamp : ℤ) (assetId : String) :
    Except BuildError ConsensusProof × ℕ :=
  if obs.length < 2 then (.error .insufficientSources, 0)
  else if toleranceThreshold obs toleranceBps < priceDiff obs then
    (.error .toleranceExceeded, 0)
  else
    match prove obs with
    | none => (.error .proofGenerationFailed, 1)
    | some (proofBytes, publicInputs) =>
      if verifyFull proofBytes publicInputs then
        (.ok { assetId := assetId
               averagedPrice := publicInputs.headD 0
               timestamp := timestamp
               proofBytes := proofBytes
               publicInputs := publicInputs }, 1)
      else (.error .localVerificationFailed, 1)

/-! ## Concrete instances used in closed statements -/

/-- An attempt trace whose first call fails with the permanent ledger
rejection `ProofAlreadyUsed` and whose second call succeeds. -/
def c4Attempts : ℕ → Except PublishError ℕ :=
  fun k => if k = 0 then .error .proofAlreadyUsed else .ok 42

/-- Two observations of one asset whose prices 100 and 200 disagree far
beyond a 100 bps tolerance. -/
def c7Obs : List PriceObservation :=
  [{ assetId := "TSLA", scaledPrice := 100, observedAt := 0, sourceId := "alphavantage" },
   { assetId := "TSLA", scaledPrice := 200, observedAt := 0, sourceId := "finnhub" }]

/-- The ledger state after the first accepted submission of the proof
`[1, 2, 3]` at price 3005000000 (declared output 30050). -/
def c1LedgerAfter : LedgerState :=
  (verify_price_proof demoHash 2 emptyLedger "TSLA" 0 [1, 2, 3] [30050]
    3005000000 1700).2

/-! ## Helper lemmas -/

lemma toInt32_range (x : ℤ) :
    -2147483648 ≤ toInt32 x ∧ toInt32 x < 2147483648 := by
  have h0 : 0 ≤ Int.emod x 4294967296 := Int.emod_nonneg x (by norm_num)
  have h1 : Int.emod x 4294967296 < 4294967296 :=
    Int.emod_lt_of_pos x (by norm_num)
  unfold toInt32
  split <;> omega

lemma foldl_assetIdToIntStep_range (l : List Char) (h : ℤ)
    (hh : -2147483648 ≤ h ∧ h < 2147483648) :
    -2147483648 ≤ l.foldl assetIdToIntStep h ∧
      l.foldl assetIdToIntStep h < 2147483648 := by
  induction l generalizing h with
  | nil => simpa using hh
  | cons c l ih =>
    simp only [List.foldl_cons]
    exact ih (assetIdToIntStep h c)
      (by unfold assetIdToIntStep; exact toInt32_range _)

lemma assetIdHash_range (s : String) :
    -2147483648 ≤ assetIdHash s ∧ assetIdHash s < 2147483648 :=
  foldl_assetIdToIntStep_range s.data 0 (by norm_num)

lemma retryModel_ok {E A : Type} (attempts : ℕ → Except E A) :
    ∀ (retries k : ℕ) (v : A),
      retryModel attempts retries k = .ok v → ∃ j, attempts j = .ok v := by
  intro retries
  induction retries with
  | zero =>
    intro k v h
    unfold retryModel at h
    cases ha : attempts k with
    | ok w =>
      rw [ha] at h
      simp at h
      exact ⟨k, by rw [ha, h]⟩
    | error e =>
      rw [ha] at h
      simp at h
  | succ r ih =>
    intro k v h
    unfold retryModel at h
    cases ha : attempts k with
    | ok w =>
      rw [ha] at h
      simp at h
      exact ⟨k, by rw [ha, h]⟩
    | error e =>
      rw [ha] at h
      exact ih (k + 1) v h

lemma publishAttempt_ok (sentTx : SentTx) (r : PublishResult)
    (h : publishAttempt sentTx = .ok r) : r.success = true := by
  unfold publishAttempt at h
  split at h
  · simp at h
  · split at h
    · split at h
      · simp only [Except.ok.injEq] at h
        subst h
        rfl
      · split at h
        · simp only [Except.ok.injEq] at h
          subst h
          rfl
        · simp at h
    · simp at h

lemma pollFuel_some_found (statuses : ℕ → GetTxStatus) :
    ∀ (fuel k : ℕ) (s : GetTxStatus),
      pollFuel statuses fuel k = some s → ∃ n, statuses n ≠ .notFound := by
  intro fuel
  induction fuel with
  | zero => intro k s h; simp [pollFuel] at h
  | succ f ih =>
    intro k s h
    unfold pollFuel at h
    cases hs : statuses k with
    | notFound => rw [hs] at h; exact ih (k + 1) s h
    | success => exact ⟨k, by rw [hs]; simp⟩
    | failed => exact ⟨k, by rw [hs]; simp⟩

lemma pollFuel_isSome_of_found (statuses : ℕ → GetTxStatus) :
    ∀ (m k : ℕ), statuses (k + m) ≠ .notFound →
      (pollFuel statuses (m + 1) k).isSome = true := by
  intro m
  induction m with
  | zero =>
    intro k hk
    unfold pollFuel
    cases hs : statuses k with
    | notFound => exact absurd (by simpa using hs) (by simpa using hk)
    | success => simp
    | failed => simp
  | succ m ih =>
    intro k hk
    unfold pollFuel
    cases hs : statuses k with
    | notFound =>
      have : statuses (k + 1 + m) ≠ .notFound := by
        rw [show k + 1 + m = k + (m + 1) by omega]; exact hk
      simpa using ih (k + 1) this
    | success => simp
    | failed => simp

lemma pollFuel_const_notFound :
    ∀ (fuel k : ℕ), pollFuel (fun _ => GetTxStatus.notFound) fuel k = none := by
  intro fuel
  induction fuel with
  | zero => intro k; rfl
  | succ f ih => intro k; unfold pollFuel; exact ih (k + 1)

lemma verify_struct_eval (hashFn : List ℕ → ℕ) (minProofLen : ℕ)
    (st : LedgerState) (assetId : String) (commitment : ℤ)
    (proofBytes publicInputs : List ℕ) (claimedPrice claimedTimestamp : ℤ)
    (r : RejectReason)
    (hstruct : validateProofStructure minProofLen proofBytes = some r) :
    verify_price_proof hashFn minProofLen st assetId commitment proofBytes
      publicInputs claimedPrice claimedTimestamp = (.reject r, st) := by
  unfold verify_price_proof
  rw [hstruct]

lemma verify_nil_eval (hashFn : List ℕ → ℕ) (minProofLen : ℕ)
    (st : LedgerState) (assetId : String) (commitment : ℤ)
    (proofBytes : List ℕ) (claimedPrice claimedTimestamp : ℤ)
    (hstruct : validateProofStructure minProofLen proofBytes = none) :
    verify_price_proof hashFn minProofLen st assetId commitment proofBytes
      [] claimedPrice claimedTimestamp = (.reject .noPublicInput, st) := by
  unfold verify_price_proof
  rw [hstruct]

lemma verify_cons_eval (hashFn : List ℕ → ℕ) (minProofLen : ℕ)
    (st : LedgerState) (assetId : String) (commitment : ℤ)
    (proofBytes : List ℕ) (avgPrice : ℕ) (rest : List ℕ)
    (claimedPrice claimedTimestamp : ℤ)
    (hstruct : validateProofStructure minProofLen proofBytes = none) :
    verify_price_proof hashFn minProofLen st assetId commitment proofBytes
      (avgPrice :: rest) claimedPrice claimedTimestamp =
      if avgPrice = scaledClaim claimedPrice then
        if hashFn proofBytes ∈ usedDigests st then
          (.reject .proofAlreadyUsed, st)
        else
          (.accept,
            { usedProofs :=
                ⟨hashFn proofBytes, claimedTimestamp, assetId⟩ :: st.usedProofs
              prices := ((assetId, claimedTimestamp), claimedPrice) :: st.prices
              audit := (commitment, hashFn proofBytes, true) :: st.audit })
      else (.reject .priceMismatch, st) := by
  unfold verify_price_proof
  rw [hstruct]

/-! ## Claims about the commitment binder -/

/-- C10: `assetIdToInt` always returns a non-negative integer below `2^32`,
and it is not injective: the distinct asset ids `"NLQQYQP"` and `"CJYCUIK"`
fold to the opposite signed 32-bit hashes `-1536035046` and `1536035046`,
which `Math.abs` maps to the same integer; consequently `generateCommit`
yields identical commitments for the two assets at any price and
timestamp. -/
theorem c10_assetIdToInt_range_and_collision :
    (∀ s : String, 0 ≤ assetIdToInt s ∧ assetIdToInt s < 4294967296) ∧
    (assetIdToInt "NLQQYQP" = assetIdToInt "CJYCUIK" ∧
      ("NLQQYQP" : String) ≠ "CJYCUIK" ∧
      assetIdHash "NLQQYQP" = -1536035046 ∧
      assetIdHash "CJYCUIK" = 1536035046) ∧
    (∀ (poseidon : List ℤ → ℤ) (price timestamp : ℤ),
      generateCommit poseidon price timestamp "NLQQYQP" =
        generateCommit poseidon price timestamp "CJYCUIK") := by
  refine ⟨?_, ⟨by decide, by decide, by decide, by decide⟩, ?_⟩
  · intro s
    obtain ⟨h1, h2⟩ := assetIdHash_range s
    constructor
    · exact abs_nonneg _
    · have h3 : |assetIdHash s| ≤ 2147483648 := abs_le.mpr ⟨h1, h2.le⟩
      calc assetIdToInt s ≤ 2147483648 := h3
        _ < 4294967296 := by norm_num
  · intro poseidon price timestamp
    simp only [generateCommit, generateCommitInputs,
      show assetIdToInt "NLQQYQP" = assetIdToInt "CJYCUIK" from by decide]

/-- C3 (code bug): evaluated at the failing input
`generateCommit(3000000000, 1700000000, "TSLA")`, the binder hashes exactly
the three inputs `[price, timestamp, assetIdInt]` — the proof digest is not
among them (the function has no digest parameter), so two attestations that
differ only in their proof digest receive the same commitment, contradicting
the claimed `ArithmeticHash([price, timestamp, assetIdInt,
proofDigestAsInt])`. -/
theorem c3_commit_ignores_proof_digest :
    generateCommitInputs 3000000000 1700000000 "TSLA" =
      [3000000000, 1700000000, 2584628] ∧
    (generateCommitInputs 3000000000 1700000000 "TSLA").length = 3 ∧
    attestationCommit demoPoseidon 3000000000 1700000000 "TSLA" 111 =
      attestationCommit demoPoseidon 3000000000 1700000000 "TSLA" 222 ∧
    (111 : ℤ) ≠ 222 :=
  ⟨by decide, by decide, rfl, by decide⟩

/-- C8: the commitment binder is deterministic and pure: runs started from
any two ambient world states return the same value, leave the world
untouched, and the value is exactly Poseidon of the input list — it depends
only on `(price, timestamp, assetId)` and the fixed Poseidon instance. -/
theorem c8_generateCommit_deterministic :
    ∀ (World : Type) (poseidon : List ℤ → ℤ) (w1 w2 : World)
      (price timestamp : ℤ) (assetId : String),
      (generateCommitRun poseidon w1 price timestamp assetId).2 =
        (generateCommitRun poseidon w2 price timestamp assetId).2 ∧
      (generateCommitRun poseidon w1 price timestamp assetId).1 = w1 ∧
      generateCommit poseidon price timestamp assetId =
        poseidon (generateCommitInputs price timestamp assetId) :=
  fun _ _ _ _ _ _ _ => ⟨rfl, rfl, rfl⟩

/-! ## Claims about the publisher -/

/-- C2 counterexample: two publish calls that differ only in the commitment
produce identical `set_asset_price` payloads, so the commitment (and a
fortiori the proof bytes and public inputs, which `PublishParams` does not
even carry) is not part of the submitted payload. -/
theorem c2_counterexample :
    setAssetPricePayload { assetId := "TSLA", price := 100, timestamp := 200, commit := "commitA" } =
      setAssetPricePayload { assetId := "TSLA", price := 100, timestamp := 200, commit := "commitB" } ∧
    ("commitA" : String) ≠ "commitB" := by
  constructor
  · rfl
  · decide

/-- C2 (amended): the transaction `publishToOracle` builds and signs
invokes `set_asset_price` with exactly `(assetId as Asset enum, price,
timestamp)`; the payload is determined by those three fields alone, and the
commitment, proof bytes and public inputs are not part of it. -/
theorem c2_payload_is_only_the_triple :
    ∀ p q : PublishParams,
      q.assetId = p.assetId → q.price = p.price → q.timestamp = p.timestamp →
      setAssetPricePayload p =
        { asset_id := { tag := "Other", values := [p.assetId] }
          price := p.price, timestamp := p.timestamp } ∧
      setAssetPricePayload q = setAssetPricePayload p := by
  intro p q h1 h2 h3
  refine ⟨rfl, ?_⟩
  simp [setAssetPricePayload, toAsset, h1, h2, h3]

/-- C2 witness: the amended statement evaluated on two concrete publish
calls that differ only in the commitment string. -/
theorem c2_witness :
    setAssetPricePayload { assetId := "TSLA", price := 100, timestamp := 200, commit := "commitA" } =
      { asset_id := { tag := "Other", values := ["TSLA"] }, price := 100, timestamp := 200 } ∧
    setAssetPricePayload { assetId := "TSLA", price := 100, timestamp := 200, commit := "commitB" } =
      setAssetPricePayload { assetId := "TSLA", price := 100, timestamp := 200, commit := "commitA" } :=
  c2_payload_is_only_the_triple
    { assetId := "TSLA", price := 100, timestamp := 200, commit := "commitA" }
    { assetId := "TSLA", price := 100, timestamp := 200, commit := "commitB" }
    rfl rfl rfl

/-- C4 counterexample: the first attempt fails with the permanent ledger
rejection `ProofAlreadyUsed`, yet `retry` retries and the call returns the
success of the second attempt instead of surfacing the rejection immediately —
the retry wrapper classifies nothing. -/
theorem c4_counterexample :
    isTransient .proofAlreadyUsed = false ∧
    retryModel c4Attempts maxRetries 0 = .ok 42 ∧
    retryModel c4Attempts maxRetries 0 ≠ .error PublishError.proofAlreadyUsed := by
  refine ⟨rfl, rfl, ?_⟩
  intro hc
  have h42 : retryModel c4Attempts maxRetries 0 = Except.ok 42 := rfl
  rw [h42] at hc
  exact Except.noConfusion hc

/-- C4 (amended): `retry` retries every failure alike — transient or
permanent — with a fixed delay, up to the remaining budget: with budget
left a failed attempt is always followed by a retry at the next index, and
with the budget exhausted the last error is thrown, in both cases
regardless of the classification of the error. -/
theorem c4_retry_ignores_classification :
    ∀ {A : Type} (attempts : ℕ → Except PublishError A) (r k : ℕ)
      (e : PublishError),
      attempts k = .error e →
      retryModel attempts (r + 1) k = retryModel attempts r (k + 1) ∧
      retryModel attempts 0 k = .error e := by
  intro A attempts r k e h
  constructor
  · conv_lhs => unfold retryModel
    rw [h]
  · unfold retryModel
    rw [h]

/-- C4 witness: the amended statement evaluated on a trace that always
fails with the permanent rejection `PriceMismatch`. -/
theorem c4_witness :
    retryModel (fun _ => (.error .priceMismatch : Except PublishError ℕ)) 2 0 =
      retryModel (fun _ => (.error .priceMismatch : Except PublishError ℕ)) 1 1 ∧
    retryModel (fun _ => (.error .priceMismatch : Except PublishError ℕ)) 0 0 =
      .error .priceMismatch :=
  c4_retry_ignores_classification
    (fun _ => (.error .priceMismatch : Except PublishError ℕ)) 1 0
    .priceMismatch rfl

/-- C5 counterexample: on a ledger that keeps answering `NOT_FOUND`, the
confirmation-poll loop of the older `publishToOracle` never terminates —
there is no maximum wait and no `SubmissionTimeout`. -/
theorem c5_counterexample :
    ¬ pollTerminates (fun _ => GetTxStatus.notFound) :=
  fun ⟨_, hn⟩ => hn rfl

/-- C5 (amended): the confirmation-poll loop polls at a fixed 1500 ms
interval with no maximum wait: it terminates exactly when some
`getTransaction` call returns a status other than `NOT_FOUND`, and on a
stream that stays `NOT_FOUND` it is still running after every finite
number of polls. -/
theorem c5_poll_has_no_timeout :
    ∀ statuses : ℕ → GetTxStatus,
      ((∃ fuel, (pollFuel statuses fuel 0).isSome = true) ↔
        pollTerminates statuses) ∧
      (∀ fuel k, pollFuel (fun _ => GetTxStatus.notFound) fuel k = none) := by
  intro statuses
  constructor
  · constructor
    · rintro ⟨fuel, hf⟩
      obtain ⟨s, hs⟩ := Option.isSome_iff_exists.mp hf
      exact pollFuel_some_found statuses fuel 0 s hs
    · rintro ⟨n, hn⟩
      exact ⟨n + 1, pollFuel_isSome_of_found statuses n 0 (by simpa using hn)⟩
  · exact pollFuel_const_notFound

/-- C5 witness: the amended statement evaluated on a stream that reports
`SUCCESS` on its first poll. -/
theorem c5_witness :
    ((∃ fuel, (pollFuel (fun _ => GetTxStatus.success) fuel 0).isSome = true) ↔
      pollTerminates (fun _ => GetTxStatus.success)) ∧
    (∀ fuel k, pollFuel (fun _ => GetTxStatus.notFound) fuel k = none) :=
  c5_poll_has_no_timeout (fun _ => GetTxStatus.success)

/-- C9: both `publishToOracle` variants never return a failed result: every
non-throwing path returns `success = true` with a transaction hash, and
every failure (no final response, non-SUCCESS status, missing hash, failed
ledger status) is surfaced only as a thrown error, so a returned value with
`success = false` is unreachable. -/
theorem c9_publish_never_returns_failure :
    ∀ (runs : ℕ → SentTx) (sendHash : Option String)
      (statuses : ℕ → GetTxStatus) (fuel : ℕ) (r rOld : PublishResult),
      publishToOracle runs = .ok r →
      publishToOracleOld sendHash statuses fuel = some (.ok rOld) →
      r.success = true ∧ rOld.success = true := by
  intro runs sendHash statuses fuel r rOld h hOld
  constructor
  · obtain ⟨j, hj⟩ :=
      retryModel_ok (fun k => publishAttempt (runs k)) maxRetries 0 r h
    exact publishAttempt_ok (runs j) r hj
  · unfold publishToOracleOld at hOld
    split at hOld
    · simp at hOld
    · split at hOld
      · simp at hOld
      · simp at hOld
      · simp only [Option.some.injEq, Except.ok.injEq] at hOld
        subst hOld
        rfl

/-- C9 witness: the theorem evaluated on a run whose final response is
`SUCCESS` with hash `"hash1"`, and an old-variant run that confirms with
hash `"hash2"` on the first poll. -/
theorem c9_witness :
    PublishResult.success { txHash := "hash1", success := true } = true ∧
    PublishResult.success { txHash := "hash2", success := true } = true :=
  c9_publish_never_returns_failure
    (fun _ => { getTransactionResponse := some { status := "SUCCESS", txHash := some "hash1" }
                sendTransactionResponse := none })
    (some "hash2") (fun _ => GetTxStatus.success) 1
    { txHash := "hash1", success := true }
    { txHash := "hash2", success := true }
    rfl rfl

/-! ## Claims about the consensus builder -/

/-- C7: when the observations disagree beyond the tolerance band —
`diff > maxPrice * toleranceBps / 10000` — `build` fails with
`ToleranceExceeded`, invokes the external `Prove` oracle zero times, and its
outcome is independent of whichever `Prove` and `VerifyFull` oracles are
plugged in. -/
theorem c7_tolerance_exceeded_never_proves :
    ∀ (prove1 prove2 : List PriceObservation → Option (List ℕ × List ℕ))
      (verifyFull1 verifyFull2 : List ℕ → List ℕ → Bool)
      (obs : List PriceObservation) (toleranceBps : ℕ)
      (timestamp : ℤ) (assetId : String),
      2 ≤ obs.length →
      toleranceThreshold obs toleranceBps < priceDiff obs →
      build prove1 verifyFull1 obs toleranceBps timestamp assetId =
        (.error .toleranceExceeded, 0) ∧
      build prove1 verifyFull1 obs toleranceBps timestamp assetId =
        build prove2 verifyFull2 obs toleranceBps timestamp assetId := by
  intro prove1 prove2 verifyFull1 verifyFull2 obs toleranceBps timestamp
    assetId hlen htol
  have hnl : ¬ obs.length < 2 := by omega
  constructor
  · unfold build; rw [if_neg hnl, if_pos htol]
  · unfold build; rw [if_neg hnl, if_pos htol, if_neg hnl, if_pos htol]

/-- C7 witness: the theorem evaluated on two observations at prices 100 and
200 with a 100 bps tolerance, under two different pairs of oracles. -/
theorem c7_witness :
    build (fun _ => none) (fun _ _ => true) c7Obs 100 0 "TSLA" =
      (.error .toleranceExceeded, 0) ∧
    build (fun _ => none) (fun _ _ => true) c7Obs 100 0 "TSLA" =
      build (fun _ => some ([1], [1])) (fun _ _ => false) c7Obs 100 0 "TSLA" :=
  c7_tolerance_exceeded_never_proves (fun _ => none)
    (fun _ => some ([1], [1])) (fun _ _ => true) (fun _ _ => false)
    c7Obs 100 0 "TSLA" (by decide) (by decide)

/-! ## Claims about the on-chain verifier -/

/-- C1 counterexample: after the proof `[1, 2, 3]` has been accepted, a
later call with the same proof bytes but a different claimed price is
rejected with `PriceMismatch` — not `ProofAlreadyUsed` — because the price
check precedes the replay check; so "every later call with the same
proofBytes returns Reject(ProofAlreadyUsed)" fails as stated. -/
theorem c1_counterexample :
    (verify_price_proof demoHash 2 emptyLedger "TSLA" 0 [1, 2, 3] [30050]
      3005000000 1700).1 = .accept ∧
    (verify_price_proof demoHash 2 c1LedgerAfter "TSLA" 0 [1, 2, 3] [30050]
      0 1700).1 = .reject .priceMismatch ∧
    RejectReason.priceMismatch ≠ RejectReason.proofAlreadyUsed := by
  refine ⟨rfl, rfl, by decide⟩

/-- C1 (amended): an accepted call stores the `UsedProofRecord` for the
digest of its proof bytes, every later call with the same
`(proofBytes, publicInputs, price, timestamp)` tuple — whatever its asset
and commitment — is rejected with `ProofAlreadyUsed` and leaves the state
unchanged, and acceptance preserves the invariant that at most one record
exists per digest. -/
theorem c1_replay_protection :
    ∀ (hashFn : List ℕ → ℕ) (minProofLen : ℕ) (st : LedgerState)
      (assetId : String) (commitment : ℤ) (proofBytes publicInputs : List ℕ)
      (claimedPrice claimedTimestamp : ℤ) (st1 : LedgerState)
      (assetId2 : String) (commitment2 : ℤ),
      verify_price_proof hashFn minProofLen st assetId commitment proofBytes
        publicInputs claimedPrice claimedTimestamp = (.accept, st1) →
      verify_price_proof hashFn minProofLen st1 assetId2 commitment2
        proofBytes publicInputs claimedPrice claimedTimestamp =
        (.reject .proofAlreadyUsed, st1) ∧
      hashFn proofBytes ∈ usedDigests st1 ∧
      ((usedDigests st).Nodup → (usedDigests st1).Nodup) := by
  intro hashFn minProofLen st assetId commitment proofBytes publicInputs
    claimedPrice claimedTimestamp st1 assetId2 commitment2 h
  cases hstruct : validateProofStructure minProofLen proofBytes with
  | some r =>
    rw [verify_struct_eval hashFn minProofLen st assetId commitment proofBytes
      publicInputs claimedPrice claimedTimestamp r hstruct] at h
    simp at h
  | none =>
    cases publicInputs with
    | nil =>
      rw [verify_nil_eval hashFn minProofLen st assetId commitment proofBytes
        claimedPrice claimedTimestamp hstruct] at h
      simp at h
    | cons avgPrice rest =>
      rw [verify_cons_eval hashFn minProofLen st assetId commitment proofBytes
        avgPrice rest claimedPrice claimedTimestamp hstruct] at h
      by_cases hp : avgPrice = scaledClaim claimedPrice
      · rw [if_pos hp] at h
        by_cases hm : hashFn proofBytes ∈ usedDigests st
        · rw [if_pos hm] at h; simp at h
        · rw [if_neg hm] at h
          rw [Prod.mk.injEq] at h
          obtain ⟨-, h2⟩ := h
          subst h2
          have hcons :
              usedDigests
                { usedProofs := ⟨hashFn proofBytes, claimedTimestamp, assetId⟩ ::
                    st.usedProofs
                  prices := ((assetId, claimedTimestamp), claimedPrice) :: st.prices
                  audit := (commitment, hashFn proofBytes, true) :: st.audit } =
                hashFn proofBytes :: usedDigests st := by
            simp [usedDigests]
          have hmem : hashFn proofBytes ∈
              usedDigests
                { usedProofs := ⟨hashFn proofBytes, claimedTimestamp, assetId⟩ ::
                    st.usedProofs
                  prices := ((assetId, claimedTimestamp), claimedPrice) :: st.prices
                  audit := (commitment, hashFn proofBytes, true) :: st.audit } := by
            rw [hcons]; exact List.mem_cons_self _ _
          refine ⟨?_, hmem, ?_⟩
          · rw [verify_cons_eval hashFn minProofLen _ assetId2 commitment2
              proofBytes avgPrice rest claimedPrice claimedTimestamp hstruct,
              if_pos hp, if_pos hmem]
          · intro hnd
            rw [hcons]
            exact List.nodup_cons.mpr ⟨hm, hnd⟩
      · rw [if_neg hp] at h; simp at h

/-- C1 witness: the amended statement evaluated on the concrete accepted
submission of proof `[1, 2, 3]` at price 3005000000 and a replay under a
different asset id and commitment. -/
theorem c1_witness :
    verify_price_proof demoHash 2 c1LedgerAfter "BTCX" 5 [1, 2, 3] [30050]
      3005000000 1700 = (.reject .proofAlreadyUsed, c1LedgerAfter) ∧
    demoHash [1, 2, 3] ∈ usedDigests c1LedgerAfter ∧
    ((usedDigests emptyLedger).Nodup → (usedDigests c1LedgerAfter).Nodup) :=
  c1_replay_protection demoHash 2 emptyLedger "TSLA" 0 [1, 2, 3] [30050]
    3005000000 1700 c1LedgerAfter "BTCX" 5 (by decide)

/-- C6 counterexample: an attestation whose claimed price 999 re-scales to
0 and so disagrees with the declared output 30050 is nevertheless rejected
with `EmptyProof` — not `PriceMismatch` — when its proof payload is empty,
because structural validation precedes the price check; so the claim fails
as stated for structurally invalid proofs. -/
theorem c6_counterexample :
    (30050 : ℕ) ≠ scaledClaim 999 ∧
    (verify_price_proof demoHash 2 emptyLedger "TSLA" 0 [] [30050]
      999 1700).1 = .reject .emptyProof ∧
    (verify_price_proof demoHash 2 emptyLedger "TSLA" 0 [] [30050]
      999 1700).1 ≠ .reject .priceMismatch := by
  refine ⟨by decide, rfl, by decide⟩

/-- C6 (amended): for every submitted attestation whose proof passes
structural validation and which declares at least one public output, if the
claimed price re-scaled by truncating division by 100000 (cast to u32)
differs from the declared output `publicInputs[0]`, the verifier returns
`Reject(PriceMismatch)` with the state unchanged — independently of the
replay state and of the cryptographic validity of the proof, which is never
checked. -/
theorem c6_price_mismatch_rejected :
    ∀ (hashFn : List ℕ → ℕ) (minProofLen : ℕ) (st : LedgerState)
      (assetId : String) (commitment : ℤ) (proofBytes : List ℕ)
      (avgPrice : ℕ) (rest : List ℕ) (claimedPrice claimedTimestamp : ℤ),
      validateProofStructure minProofLen proofBytes = none →
      avgPrice ≠ scaledClaim claimedPrice →
      verify_price_proof hashFn minProofLen st assetId commitment proofBytes
        (avgPrice :: rest) claimedPrice claimedTimestamp =
        (.reject .priceMismatch, st) := by
  intro hashFn minProofLen st assetId commitment proofBytes avgPrice rest
    claimedPrice claimedTimestamp hstruct hne
  unfold verify_price_proof
  rw [hstruct]
  exact if_neg hne

/-- C6 witness: the amended statement evaluated on the structurally valid
proof `[1, 2, 3]` whose declared output 1 disagrees with the claimed price
999 (which re-scales to 0). -/
theorem c6_witness :
    verify_price_proof demoHash 2 emptyLedger "TSLA" 0 [1, 2, 3] [1]
      999 1700 = (.reject .priceMismatch, emptyLedger) :=
  c6_price_mismatch_rejected demoHash 2 emptyLedger "TSLA" 0 [1, 2, 3] 1 []
    999 1700 (by decide) (by decide)

end NekoOracle
